import Mathlib

/-!
Shallow embedding of the session/identity layer of the `webauth` crates.

Modelled source files:
- `webauth/src/session.rs` — the `Session` entity and the `SessionManager`
  middleware (`SessionManager::call`).
- `webauth/src/user.rs` — the `UserManager` middleware (`UserManager::call`).
- `webauth/src/store.rs` — the store error taxonomy.
- `webauth-store-memory/src/session.rs` — the in-memory `Store` keyed by id.

Modelling conventions:
- `Uuid` and `SystemTime` become `Nat`; random uid generation and the clock
  become explicit parameters (`freshUid`, `now`).
- The Rust `Session` holds `data: Arc<Mutex<HashMap<String, Value>>>` and
  `modified: Arc<AtomicBool>`; cloning a `Session` copies `uid` and
  `expires_at` by value and shares the two `Arc` cells. We model the cells as
  addresses (`dataRef`, `modRef`) into an explicit `Heap`, so a struct copy of
  a `Session` is the identity and aliasing through clones is preserved.
- `serde_json::Value` is modelled by a JSON scalar type `Value`; no claim
  depends on the shape of stored values, only on storing, comparing and
  decoding them. A serde `Serialize`/`DeserializeOwned` pair at a Rust type `T`
  is modelled by a `Codec T` (fallible encode and decode into `Value`).
- `HashMap<String, Value>` is modelled by an association list with unique
  keys: `mapInsert` replaces any existing binding, `mapRemove` removes it.
-/

namespace Webauth

/-- JSON value type standing in for `serde_json::Value`, the representation
in which session data is stored. Arrays and objects are omitted: the claims
only store, compare and decode values, never inspect their shape. -/
inductive Value where
  | null : Value
  | bool (b : Bool) : Value
  | num (n : Int) : Value
  | str (s : String) : Value
deriving DecidableEq, Repr

/-- A serde `Serialize`/`DeserializeOwned` pair at some Rust type `T`:
`enc` models `serde_json::to_value` (may fail with a serde error) and
`dec` models `serde_json::from_value` (may fail with a decode error). -/
structure Codec (T : Type) where
  enc : T → Option Value
  dec : Value → Option T

/-- A codec is lawful when decoding an encoded value gives the value back;
this is the standing assumption on well-behaved serde instances and is what
the spec means by reading back a value "of the same shape". -/
def Codec.Roundtrips {T : Type} (c : Codec T) : Prop :=
  ∀ t v, c.enc t = some v → c.dec v = some t

/-- A concrete codec used by the witness theorems: a serde instance at the
Rust type `i64`, encoding into `Value.num`. -/
def intCodec : Codec Int :=
  ⟨fun i => some (Value.num i),
   fun v => match v with | Value.num i => some i | _ => none⟩

/-- The error type of `webauth/src/session.rs` (`Error::Serde`), produced by
failed serialization or deserialization of session data. -/
inductive SerdeErr where
  | serde : SerdeErr
deriving DecidableEq, Repr

/-- The error taxonomy of `webauth/src/store.rs` (`Error::{Encode, Decode,
Backend}`). -/
inductive StoreErr where
  | encode : StoreErr
  | decode : StoreErr
  | backend : StoreErr
deriving DecidableEq, Repr

/-- Lookup in the association-list model of `HashMap<String, Value>`
(`HashMap::get`). -/
def mapGet (m : List (String × Value)) (k : String) : Option Value :=
  match m.find? (fun p => p.1 == k) with
  | some p => some p.2
  | none => none

/-- Drop every binding of key `k`; helper for insert/remove keeping the
unique-keys invariant of `HashMap`. -/
def eraseKey (m : List (String × Value)) (k : String) : List (String × Value) :=
  m.filter (fun p => p.1 != k)

/-- `HashMap::insert`: binds `k` to `v`, replacing any existing binding. -/
def mapInsert (m : List (String × Value)) (k : String) (v : Value) :
    List (String × Value) :=
  (k, v) :: eraseKey m k

/-- `HashMap::remove`: returns the removed value, if any, and the map with
the binding for `k` gone. -/
def mapRemove (m : List (String × Value)) (k : String) :
    Option Value × List (String × Value) :=
  (mapGet m k, eraseKey m k)

/-- Heap of shared cells. `datas` holds the `Arc<Mutex<HashMap<String,
Value>>>` cells and `flags` the `Arc<AtomicBool>` cells; a `Session` stores
addresses into these lists, so Rust's `Arc` sharing between clones becomes
sharing of addresses. -/
structure Heap where
  datas : List (List (String × Value))
  flags : List Bool
deriving DecidableEq, Repr

/-- Read a data cell (locking the mutex and reading the map). -/
def Heap.getData (h : Heap) (r : Nat) : List (String × Value) :=
  h.datas.getD r []

/-- Overwrite a data cell. -/
def Heap.setData (h : Heap) (r : Nat) (m : List (String × Value)) : Heap :=
  { h with datas := h.datas.set r m }

/-- Read a flag cell (`AtomicBool::load`). -/
def Heap.getFlag (h : Heap) (r : Nat) : Bool :=
  h.flags.getD r false

/-- Write a flag cell (`AtomicBool::store`). -/
def Heap.setFlag (h : Heap) (r : Nat) (b : Bool) : Heap :=
  { h with flags := h.flags.set r b }

/-- Stand-in for `uuid::Uuid` (a 128-bit random identifier; only equality
and freshness matter to the claims). -/
abbrev Uuid := Nat

/-- The `Session` struct of `webauth/src/session.rs`: `uid` and `expires_at`
are plain fields (copied by `Clone`), while `data` and `modified` are `Arc`
cells, modelled as heap addresses shared by all clones. -/
structure Session where
  uid : Uuid
  expires_at : Nat
  dataRef : Nat
  modRef : Nat
deriving DecidableEq, Repr

/-- `DEFAULT_EXPIRATION`: one week, in seconds. -/
def DEFAULT_EXPIRATION : Nat := 60 * 60 * 24 * 7

/-- `Session::new(expires_in)`: fresh random uid, `expires_at = now +
expires_in`, freshly allocated empty data map, and a freshly allocated
modified flag initialized to `true` ("Creating a new session using `new`
makes it unsaved/modified"). -/
def Session.new (freshUid : Uuid) (now expiresIn : Nat) (h : Heap) :
    Session × Heap :=
  (⟨freshUid, now + expiresIn, h.datas.length, h.flags.length⟩,
   ⟨h.datas ++ [[]], h.flags ++ [true]⟩)

/-- `Session::is_modified`: reads the shared modified flag. -/
def Session.is_modified (s : Session) (h : Heap) : Bool :=
  h.getFlag s.modRef

/-- `Session::cycle_uid`: assigns a fresh uid to this copy of the struct
(`self.uid = Uuid::new_v4()`), stores `true` into the shared modified flag,
and returns the replaced uid. Note only the flag is shared: the uid change
is local to the copy on which the method is called. -/
def Session.cycle_uid (s : Session) (freshUid : Uuid) (h : Heap) :
    Uuid × Session × Heap :=
  (s.uid, { s with uid := freshUid }, h.setFlag s.modRef true)

/-- `Session::insert(key, value)`: serializes the value
(`serde_json::to_value(value)?` — an encode failure returns early, before
the map or the flag is touched), stores it under `key`, and marks the
session modified. -/
def Session.insert {T : Type} (s : Session) (key : String) (c : Codec T)
    (value : T) (h : Heap) : Except SerdeErr Unit × Heap :=
  match c.enc value with
  | none => (Except.error SerdeErr.serde, h)
  | some v =>
      (Except.ok (),
       (h.setData s.dataRef (mapInsert (h.getData s.dataRef) key v)).setFlag
         s.modRef true)

/-- `Session::get<T>(key)`: looks up `key`, clones the value and attempts the
typed decode; absent keys give `Ok(None)`, decode failures give an error.
The heap is returned unchanged: the method only reads. -/
def Session.get {T : Type} (s : Session) (c : Codec T) (key : String)
    (h : Heap) : Except SerdeErr (Option T) × Heap :=
  (match mapGet (h.getData s.dataRef) key with
   | none => Except.ok none
   | some v =>
       match c.dec v with
       | none => Except.error SerdeErr.serde
       | some t => Except.ok (some t),
   h)

/-- `Session::remove<T>(key)`: `map.remove(key)` removes the binding first;
then the typed decode is attempted, and a decode failure returns early
(`map_err(...)?`) with the binding already gone and the modified flag
untouched. Only when a value was removed and decoded is the flag stored. -/
def Session.remove {T : Type} (s : Session) (c : Codec T) (key : String)
    (h : Heap) : Except SerdeErr (Option T) × Heap :=
  let rm := mapRemove (h.getData s.dataRef) key
  let h1 := h.setData s.dataRef rm.2
  match rm.1 with
  | none => (Except.ok none, h1)
  | some v =>
      match c.dec v with
      | none => (Except.error SerdeErr.serde, h1)
      | some t => (Except.ok (some t), h1.setFlag s.modRef true)

/-- `Session::clear`: empties the data map and unconditionally marks the
session modified. -/
def Session.clear (s : Session) (h : Heap) : Heap :=
  (h.setData s.dataRef []).setFlag s.modRef true

/-- The in-memory store of `webauth-store-memory/src/session.rs`:
`objects: Arc<Mutex<HashMap<Uid, Object>>>` at `Object = Session`. Stored
`Session` values are struct copies sharing their `Arc` cells, so the heap
addresses inside them alias whatever was saved. -/
structure MemStore where
  objects : List (Uuid × Session)
deriving DecidableEq, Repr

/-- `HashMap::get` on the store's object map. -/
def storeLookup (m : List (Uuid × Session)) (id : Uuid) : Option Session :=
  match m.find? (fun p => p.1 == id) with
  | some p => some p.2
  | none => none

/-- Drop every binding of `id`; helper keeping unique keys on upsert. -/
def storeErase (m : List (Uuid × Session)) (id : Uuid) :
    List (Uuid × Session) :=
  m.filter (fun p => p.1 != id)

/-- `Store::load` of `webauth-store-memory/src/session.rs`: looks the id up
in the map; since `Object = Session`, the expiry of the record is checked
(`sess.expires_at() < &SystemTime::now()`) and an expired record is reported
as absent. The returned session is `obj.cloned()` — a struct copy sharing
the stored record's cells — and the store itself is returned unchanged: the
method never writes to the map. -/
def MemStore.load (st : MemStore) (id : Uuid) (now : Nat) :
    Option Session × MemStore :=
  (match storeLookup st.objects id with
   | none => none
   | some sess => if sess.expires_at < now then none else some sess,
   st)

/-- `Store::save` of `webauth-store-memory/src/session.rs`:
`map.insert(*id, obj.clone())` — an upsert of a struct copy that shares the
saved session's cells. -/
def MemStore.save (st : MemStore) (id : Uuid) (obj : Session) : MemStore :=
  ⟨(id, obj) :: storeErase st.objects id⟩

/-- `Store::delete` of `webauth-store-memory/src/session.rs`:
`map.remove(id)`; removing an absent id is a no-op. -/
def MemStore.delete (st : MemStore) (id : Uuid) : MemStore :=
  ⟨storeErase st.objects id⟩

/-- An HTTP response: a status code and an opaque body token. `body = 0`
stands for the empty `Default` body the managers substitute on failure. -/
structure Resp where
  status : Nat
  body : Nat
deriving DecidableEq, Repr

/-- `Response::default()` with `StatusCode::INTERNAL_SERVER_ERROR`. -/
def serverError : Resp := ⟨500, 0⟩

/-- `Response::default()` with `StatusCode::UNAUTHORIZED`. -/
def unauthorized : Resp := ⟨401, 0⟩

/-- What the request's cookie jar holds under the configured cookie name:
no cookie, a cookie whose value does not parse as a `Uuid`, or a cookie
carrying a uid. -/
inductive CookieJarEntry where
  | absent : CookieJarEntry
  | unparseable : CookieJarEntry
  | uuid (u : Uuid) : CookieJarEntry
deriving DecidableEq, Repr

/-- The uid extraction of `SessionManager::call`:
`cookies.get(cookie_name).and_then(|c| c.value().parse::<Uuid>().ok())` —
a missing cookie and a parse failure both yield `None`. -/
def sessionUidOf : CookieJarEntry → Option Uuid
  | CookieJarEntry.uuid u => some u
  | _ => none

namespace SessionManager

/-- Everything observable about one `SessionManager::call`: the response,
the cookie added by the manager (name and uid written as the value), the
`Store::save` invocations it made (with their arguments), and the final
heap. -/
structure MgrResult where
  resp : Resp
  cookie : Option (String × Uuid)
  saves : List (Uuid × Session)
  heap : Heap
deriving DecidableEq, Repr

/-- Steps 1–2 of `SessionManager::call`: resolve the cookie to a session.
No usable uid, or a uid the store reports absent or expired, yields a fresh
`Session::new(DEFAULT_EXPIRATION)`; a load failure aborts. The store is
abstracted as the function `loadFn`, and the nondeterministic uid and clock
are the explicit `freshUid` and `now`. -/
def acquireSession (loadFn : Uuid → Except StoreErr (Option Session))
    (cookie : CookieJarEntry) (freshUid : Uuid) (now : Nat) (h : Heap) :
    Except StoreErr (Session × Heap) :=
  match sessionUidOf cookie with
  | some suid =>
      match loadFn suid with
      | Except.error e => Except.error e
      | Except.ok none => Except.ok (Session.new freshUid now DEFAULT_EXPIRATION h)
      | Except.ok (some sess) => Except.ok (sess, h)
  | none => Except.ok (Session.new freshUid now DEFAULT_EXPIRATION h)

/-- `SessionManager::call` (`webauth/src/session.rs`). A load failure
substitutes a 500 before the downstream stage runs. Otherwise the session is
attached to the request (`req.extensions_mut().insert(session.clone())` — the
handler receives a struct copy sharing the heap cells, and whatever it does
to its copy's plain fields is invisible here) and the downstream `handler`
runs, possibly mutating the heap. If the manager's session then reports
modified, `store.save(session.uid(), &session)` is called: on failure the
downstream response is discarded for a 500 with no cookie; on success the
cookie is set to `session.uid()` and the downstream response is passed
through. An unmodified session makes no save call and writes no cookie. -/
def call (loadFn : Uuid → Except StoreErr (Option Session))
    (saveFn : Uuid → Session → Except StoreErr Unit) (cookieName : String)
    (cookie : CookieJarEntry) (handler : Session → Heap → Resp × Heap)
    (freshUid : Uuid) (now : Nat) (h : Heap) : MgrResult :=
  match acquireSession loadFn cookie freshUid now h with
  | Except.error _ => ⟨serverError, none, [], h⟩
  | Except.ok sh =>
      let sess := sh.1
      let rh := handler sess sh.2
      if sess.is_modified rh.2 then
        match saveFn sess.uid sess with
        | Except.error _ => ⟨serverError, none, [(sess.uid, sess)], rh.2⟩
        | Except.ok _ => ⟨rh.1, some (cookieName, sess.uid), [(sess.uid, sess)], rh.2⟩
      else ⟨rh.1, none, [], rh.2⟩

end SessionManager

namespace UserManager

/-- Everything observable about one `UserManager::call`: the response,
whether the downstream stage was invoked, and the user attached to the
request context. -/
structure Outcome (User : Type) where
  resp : Resp
  invoked : Bool
  attached : Option User
deriving DecidableEq, Repr

/-- `UserManager::call` (`webauth/src/user.rs`). The session is fetched from
the request context (`sessionOpt`); absent gives 401 without invoking
downstream. `session.get::<User::Id>("user_uid")` then reads the identity
key: absent gives 401, a decode failure 500. The user store's load
(`loadFn`) maps a backend error to 500 and an unresolvable user to 401.
On success the user is attached and the downstream response passes through
unchanged. -/
def call {User UserId : Type}
    (loadFn : UserId → Except StoreErr (Option User)) (idCodec : Codec UserId)
    (sessionOpt : Option Session) (h : Heap) (handler : User → Resp) :
    Outcome User :=
  match sessionOpt with
  | none => ⟨unauthorized, false, none⟩
  | some session =>
      match (Session.get session idCodec "user_uid" h).1 with
      | Except.error _ => ⟨serverError, false, none⟩
      | Except.ok none => ⟨unauthorized, false, none⟩
      | Except.ok (some userUid) =>
          match loadFn userUid with
          | Except.error _ => ⟨serverError, false, none⟩
          | Except.ok none => ⟨unauthorized, false, none⟩
          | Except.ok (some user) => ⟨handler user, true, some user⟩

end UserManager

/-! Shared helper lemmas about the heap and the association-list maps. -/

/-- Writing a flag cell leaves every data cell unchanged. -/
theorem Heap.getData_setFlag (h : Heap) (r : Nat) (b : Bool) (r' : Nat) :
    (h.setFlag r b).getData r' = h.getData r' := rfl

/-- Writing a data cell leaves every flag cell unchanged. -/
theorem Heap.getFlag_setData (h : Heap) (r : Nat) (m : List (String × Value))
    (r' : Nat) : (h.setData r m).getFlag r' = h.getFlag r' := rfl

/-- Reading back a freshly written data cell. -/
theorem Heap.getData_setData_self (h : Heap) (r : Nat)
    (m : List (String × Value)) (hr : r < h.datas.length) :
    (h.setData r m).getData r = m := by
  simp [Heap.setData, Heap.getData, List.getD, List.getElem?_set_eq_of_lt m hr]

/-- Reading back a freshly written flag cell. -/
theorem Heap.getFlag_setFlag_self (h : Heap) (r : Nat) (b : Bool)
    (hr : r < h.flags.length) : (h.setFlag r b).getFlag r = b := by
  simp [Heap.setFlag, Heap.getFlag, List.getD, List.getElem?_set_eq_of_lt b hr]

/-- Writing a data cell does not change the number of data cells. -/
theorem Heap.length_setData (h : Heap) (r : Nat) (m : List (String × Value)) :
    (h.setData r m).datas.length = h.datas.length := by
  simp [Heap.setData]

/-- A lookup right after an insert of the same key finds the inserted value. -/
theorem mapGet_mapInsert_self (m : List (String × Value)) (k : String)
    (v : Value) : mapGet (mapInsert m k v) k = some v := by
  simp [mapGet, mapInsert, List.find?]

/-- Erasing a key makes its lookup fail. -/
theorem mapGet_eraseKey_self (m : List (String × Value)) (k : String) :
    mapGet (eraseKey m k) k = none := by
  induction m with
  | nil => rfl
  | cons p rest ih =>
      by_cases hk : p.1 = k
      · simpa [mapGet, eraseKey, hk] using ih
      · simpa [mapGet, eraseKey, List.find?, hk] using ih

/-- The witness codec is lawful. -/
theorem intCodec_roundtrips : intCodec.Roundtrips := by
  intro t v hv
  simp only [intCodec] at hv ⊢
  cases hv
  rfl

/-- Core insert-then-get computation, shared by the claims about the session
data map and about the aliasing in-memory store. -/
theorem Session.insert_get_aux {T : Type} (s : Session) (c : Codec T)
    (key : String) (v : T) (h : Heap) (hd : s.dataRef < h.datas.length)
    (hc : c.Roundtrips) (hok : (Session.insert s key c v h).1 = Except.ok ()) :
    (Session.get s c key (Session.insert s key c v h).2).1 =
      Except.ok (some v) := by
  cases henc : c.enc v with
  | none => simp [Session.insert, henc] at hok
  | some val =>
      have hdec : c.dec val = some v := hc v val henc
      simp [Session.insert, Session.get, henc, Heap.getData_setFlag,
        Heap.getData_setData_self h s.dataRef _ hd, mapGet_mapInsert_self, hdec]

/-- A freshly constructed session carries the uid it was given. -/
theorem Session.new_uid (freshUid now expiresIn : Nat) (h : Heap) :
    ((Session.new freshUid now expiresIn h).1).uid = freshUid := rfl

/-- A freshly constructed session reports itself modified: `Session::new`
allocates its `AtomicBool` with value `true`. -/
theorem Session.new_is_modified (freshUid now expiresIn : Nat) (h : Heap) :
    ((Session.new freshUid now expiresIn h).1).is_modified
      (Session.new freshUid now expiresIn h).2 = true := by
  simp [Session.new, Session.is_modified, Heap.getFlag, List.getD,
    List.getElem?_concat_length]

/-! Claim theorems. -/

/-- C10: `Session::get` leaves the session unchanged whatever the lookup
outcome — the heap (hence the data map) is returned as it was and
`is_modified` reads the same flag value after the call as before, whether
the key is absent, decodes successfully, or fails to decode. -/
theorem session_get_pure {T : Type} (s : Session) (c : Codec T) (key : String)
    (h : Heap) :
    (Session.get s c key h).2 = h ∧
    Session.is_modified s (Session.get s c key h).2 = Session.is_modified s h :=
  ⟨rfl, rfl⟩

/-- C9: for every session, key and value of a lawful serde shape, a
successful `Session::insert` followed by `Session::get` of the same key and
shape returns the inserted value. -/
theorem session_insert_get_roundtrip {T : Type} (s : Session) (c : Codec T)
    (key : String) (v : T) (h : Heap) (hd : s.dataRef < h.datas.length)
    (hc : c.Roundtrips)
    (hok : (Session.insert s key c v h).1 = Except.ok ()) :
    (Session.get s c key (Session.insert s key c v h).2).1 =
      Except.ok (some v) :=
  Session.insert_get_aux s c key v h hd hc hok

/-- Witness for C9 at a concrete session, heap, key and value. -/
theorem session_insert_get_roundtrip_witness :
    (Session.get ⟨1, 100, 0, 0⟩ intCodec "k"
       (Session.insert ⟨1, 100, 0, 0⟩ "k" intCodec 3 ⟨[[]], [false]⟩).2).1
      = Except.ok (some 3) :=
  session_insert_get_roundtrip ⟨1, 100, 0, 0⟩ intCodec "k" 3 ⟨[[]], [false]⟩
    (by decide) intCodec_roundtrips rfl

/-- C6 counterexample: removing a present key whose value fails the typed
decode removes the entry from the data map (`HashMap::remove` runs before
the decode) but returns early on the decode error, so the session is NOT
marked modified — refuting the claim that `remove` marks the session dirty
whenever an entry was actually removed, including the decode-failure case.
Here the stored value is a string, the requested shape an integer. -/
theorem session_remove_decode_failure_counterexample :
    (Session.remove ⟨1, 100, 0, 0⟩ intCodec "k"
        ⟨[[("k", Value.str "x")]], [false]⟩).1 = Except.error SerdeErr.serde ∧
    mapGet ((Session.remove ⟨1, 100, 0, 0⟩ intCodec "k"
        ⟨[[("k", Value.str "x")]], [false]⟩).2.getData 0) "k" = none ∧
    Session.is_modified ⟨1, 100, 0, 0⟩
        (Session.remove ⟨1, 100, 0, 0⟩ intCodec "k"
          ⟨[[("k", Value.str "x")]], [false]⟩).2 = false := by
  refine ⟨rfl, ?_, rfl⟩
  rfl

/-- C6 (amended): `remove` on an absent key returns "not found" and leaves
`is_modified` unchanged; `remove` marks the session dirty iff an entry was
present AND its typed decode succeeded; and in every case — including a
decode failure — the entry is gone from the data map afterwards. -/
theorem session_remove_dirty_contract {T : Type} (s : Session) (c : Codec T)
    (key : String) (h : Heap) (hd : s.dataRef < h.datas.length)
    (hm : s.modRef < h.flags.length) :
    (mapGet (h.getData s.dataRef) key = none →
        (Session.remove s c key h).1 = Except.ok none ∧
        Session.is_modified s (Session.remove s c key h).2 =
          Session.is_modified s h) ∧
    Session.is_modified s (Session.remove s c key h).2 =
      (Session.is_modified s h ||
        (match mapGet (h.getData s.dataRef) key with
         | some v => (c.dec v).isSome
         | none => false)) ∧
    mapGet ((Session.remove s c key h).2.getData s.dataRef) key = none := by
  cases hg : mapGet (h.getData s.dataRef) key with
  | none =>
      refine ⟨fun _ => ⟨?_, ?_⟩, ?_, ?_⟩
      · simp [Session.remove, mapRemove, hg]
      · simp [Session.remove, mapRemove, hg, Session.is_modified,
          Heap.getFlag_setData]
      · simp [Session.remove, mapRemove, hg, Session.is_modified,
          Heap.getFlag_setData]
      · simp [Session.remove, mapRemove, hg,
          Heap.getData_setData_self h s.dataRef _ hd, mapGet_eraseKey_self]
  | some v =>
      cases hdec : c.dec v with
      | none =>
          refine ⟨fun hn => ?_, ?_, ?_⟩
          · simp at hn
          · simp [Session.remove, mapRemove, hg, hdec, Session.is_modified,
              Heap.getFlag_setData]
          · simp [Session.remove, mapRemove, hg, hdec,
              Heap.getData_setData_self h s.dataRef _ hd, mapGet_eraseKey_self]
      | some t =>
          have hm1 : s.modRef <
              (h.setData s.dataRef
                (eraseKey (h.getData s.dataRef) key)).flags.length := hm
          refine ⟨fun hn => ?_, ?_, ?_⟩
          · simp at hn
          · simp [Session.remove, mapRemove, hg, hdec, Session.is_modified,
              Heap.getFlag_setFlag_self _ _ _ hm1]
          · simp [Session.remove, mapRemove, hg, hdec, Heap.getData_setFlag,
              Heap.getData_setData_self h s.dataRef _ hd, mapGet_eraseKey_self]

/-- Witness for the amended C6: on a concrete session holding an integer at
"k" with the dirty flag down, the flag after `remove` equals the
present-and-decodable disjunction. -/
theorem session_remove_dirty_contract_witness :
    Session.is_modified ⟨2, 50, 0, 0⟩
        (Session.remove ⟨2, 50, 0, 0⟩ intCodec "k"
          ⟨[[("k", Value.num 4)]], [false]⟩).2 =
      (Session.is_modified ⟨2, 50, 0, 0⟩ ⟨[[("k", Value.num 4)]], [false]⟩ ||
        (match mapGet ((⟨[[("k", Value.num 4)]], [false]⟩ : Heap).getData 0)
            "k" with
         | some v => (intCodec.dec v).isSome
         | none => false)) :=
  (session_remove_dirty_contract ⟨2, 50, 0, 0⟩ intCodec "k"
     ⟨[[("k", Value.num 4)]], [false]⟩ (by decide) (by decide)).2.1

/-- C3: the in-memory store's `load` returns a live alias, not a value copy:
after `load(id)` returns a session `s`, inserting through `s` mutates the
shared data cell, so a subsequent `load(id)` — with no `save` call anywhere
in between — observes the inserted entry through the session it returns. -/
theorem memStore_load_alias_insert_leaks {T : Type} (st : MemStore)
    (id : Uuid) (now : Nat) (h : Heap) (s : Session) (c : Codec T)
    (key : String) (v : T) (hload : (MemStore.load st id now).1 = some s)
    (hd : s.dataRef < h.datas.length) (hc : c.Roundtrips)
    (hok : (Session.insert s key c v h).1 = Except.ok ()) :
    ∃ s2, (MemStore.load st id now).1 = some s2 ∧
      (Session.get s2 c key (Session.insert s key c v h).2).1 =
        Except.ok (some v) :=
  ⟨s, hload, Session.insert_get_aux s c key v h hd hc hok⟩

/-- Witness for C3: a concrete store holding one live session; inserting 7
at "n" through the loaded alias is visible through a fresh `load`. -/
theorem memStore_load_alias_insert_leaks_witness :
    ∃ s2, (MemStore.load ⟨[(5, ⟨5, 1000, 0, 0⟩)]⟩ 5 10).1 = some s2 ∧
      (Session.get s2 intCodec "n"
        (Session.insert (⟨5, 1000, 0, 0⟩ : Session) "n" intCodec 7
          ⟨[[]], [true]⟩).2).1 = Except.ok (some 7) :=
  memStore_load_alias_insert_leaks ⟨[(5, ⟨5, 1000, 0, 0⟩)]⟩ 5 10 ⟨[[]], [true]⟩
    ⟨5, 1000, 0, 0⟩ intCodec "n" 7 rfl (by decide) intCodec_roundtrips rfl

/-- C7: the in-memory store's `load(id)` answers "not found" both when no
record exists under `id` and when the record under `id` has expired
(`expires_at` before `now`); in the expired case the physical record is not
deleted — the store comes back unchanged and the record is still there. -/
theorem memStore_load_missing_or_expired (st : MemStore) (id : Uuid)
    (now : Nat) :
    (storeLookup st.objects id = none → MemStore.load st id now = (none, st)) ∧
    (∀ sess, storeLookup st.objects id = some sess → sess.expires_at < now →
      MemStore.load st id now = (none, st) ∧
      storeLookup (MemStore.load st id now).2.objects id = some sess) := by
  constructor
  · intro hl
    simp [MemStore.load, hl]
  · intro sess hl hexp
    refine ⟨?_, ?_⟩
    · simp [MemStore.load, hl, hexp]
    · simpa [MemStore.load] using hl

/-- Witness for C7: an expired record (expiry 10, clock 100) is reported
absent while still physically present in the returned store. -/
theorem memStore_load_missing_or_expired_witness :
    MemStore.load ⟨[(3, ⟨3, 10, 0, 0⟩)]⟩ 3 100 =
      (none, ⟨[(3, ⟨3, 10, 0, 0⟩)]⟩) ∧
    storeLookup (MemStore.load ⟨[(3, ⟨3, 10, 0, 0⟩)]⟩ 3 100).2.objects 3 =
      some ⟨3, 10, 0, 0⟩ :=
  (memStore_load_missing_or_expired ⟨[(3, ⟨3, 10, 0, 0⟩)]⟩ 3 100).2
    ⟨3, 10, 0, 0⟩ rfl (by decide)

/-- C1 counterexample: a request with no session cookie whose handler does
not touch the session nevertheless triggers a `Store::save` call and a
`Set-Cookie`: `Session::new` allocates its modified flag `true`, so the
post-handler `is_modified` check passes. This refutes the claim that such a
request leaves no save call and no cookie. -/
theorem sessionManager_noCookie_untouched_counterexample :
    (SessionManager.call (fun _ => Except.ok none) (fun _ _ => Except.ok ())
        "uid" CookieJarEntry.absent (fun _ hh => (⟨200, 7⟩, hh)) 42 0
        ⟨[], []⟩).saves = [(42, ⟨42, DEFAULT_EXPIRATION, 0, 0⟩)] ∧
    (SessionManager.call (fun _ => Except.ok none) (fun _ _ => Except.ok ())
        "uid" CookieJarEntry.absent (fun _ hh => (⟨200, 7⟩, hh)) 42 0
        ⟨[], []⟩).cookie = some ("uid", 42) :=
  ⟨rfl, rfl⟩

/-- C1 (amended): on a request with no session cookie whose handler does not
touch the session (modelled: the handler leaves the heap unchanged), the
manager constructs a fresh session, which is born modified, and therefore
makes exactly one `Store::save` call under the fresh uid; if that save
succeeds, the response carries a cookie with the fresh uid. -/
theorem sessionManager_noCookie_untouched_saves
    (loadFn : Uuid → Except StoreErr (Option Session))
    (saveFn : Uuid → Session → Except StoreErr Unit) (name : String)
    (handler : Session → Heap → Resp × Heap) (freshUid : Uuid) (now : Nat)
    (h : Heap) (hH : ∀ s hh, (handler s hh).2 = hh) :
    (SessionManager.call loadFn saveFn name CookieJarEntry.absent handler
        freshUid now h).saves
      = [(freshUid, (Session.new freshUid now DEFAULT_EXPIRATION h).1)] ∧
    (saveFn freshUid (Session.new freshUid now DEFAULT_EXPIRATION h).1 =
        Except.ok () →
      (SessionManager.call loadFn saveFn name CookieJarEntry.absent handler
          freshUid now h).cookie = some (name, freshUid)) := by
  have hacq : SessionManager.acquireSession loadFn CookieJarEntry.absent
      freshUid now h = Except.ok (Session.new freshUid now DEFAULT_EXPIRATION h) := rfl
  have hmod := Session.new_is_modified freshUid now DEFAULT_EXPIRATION h
  cases hs : saveFn freshUid ((Session.new freshUid now DEFAULT_EXPIRATION h).1) with
  | error e =>
      constructor
      · simp [SessionManager.call, hacq, hH, hmod, Session.new_uid, hs]
      · intro hok
        simp at hok
  | ok u =>
      constructor
      · simp [SessionManager.call, hacq, hH, hmod, Session.new_uid, hs]
      · intro _
        simp [SessionManager.call, hacq, hH, hmod, Session.new_uid, hs]

/-- Witness for the amended C1 at a concrete no-cookie request with an
untouched session and a succeeding save. -/
theorem sessionManager_noCookie_untouched_saves_witness :
    (SessionManager.call (fun _ => Except.ok none) (fun _ _ => Except.ok ())
        "sid" CookieJarEntry.absent (fun _ hh => (⟨200, 3⟩, hh)) 11 5
        ⟨[], []⟩).saves = [(11, ⟨11, 5 + DEFAULT_EXPIRATION, 0, 0⟩)] ∧
    (SessionManager.call (fun _ => Except.ok none) (fun _ _ => Except.ok ())
        "sid" CookieJarEntry.absent (fun _ hh => (⟨200, 3⟩, hh)) 11 5
        ⟨[], []⟩).cookie = some ("sid", 11) := by
  have h := sessionManager_noCookie_untouched_saves (fun _ => Except.ok none)
    (fun _ _ => Except.ok ()) "sid" (fun _ hh => (⟨200, 3⟩, hh)) 11 5 ⟨[], []⟩
    (fun _ _ => rfl)
  exact ⟨h.1, h.2 rfl⟩

/-- C2 (code bug evaluation): a valid cookie resolving to a live unexpired
record in the in-memory store, with a handler that only reads, still
produces a `Store::save` call and a cookie rewrite. The stored record's
`Arc`-shared modified flag was set when the record was first created and
saved, and no code path ever stores `false` into it, so `is_modified` is
`true` as soon as the session is loaded. The heap below is exactly the state
an earlier save leaves behind: the record's flag cell holds `true`. -/
theorem sessionManager_loaded_readonly_resaves :
    (SessionManager.call
        (fun uid => Except.ok (MemStore.load ⟨[(5, ⟨5, 1000, 0, 0⟩)]⟩ uid 10).1)
        (fun _ _ => Except.ok ()) "sid" (CookieJarEntry.uuid 5)
        (fun _ hh => (⟨200, 2⟩, hh)) 77 10
        ⟨[[("x", Value.num 1)]], [true]⟩).saves = [(5, ⟨5, 1000, 0, 0⟩)] ∧
    (SessionManager.call
        (fun uid => Except.ok (MemStore.load ⟨[(5, ⟨5, 1000, 0, 0⟩)]⟩ uid 10).1)
        (fun _ _ => Except.ok ()) "sid" (CookieJarEntry.uuid 5)
        (fun _ hh => (⟨200, 2⟩, hh)) 77 10
        ⟨[[("x", Value.num 1)]], [true]⟩).cookie = some ("sid", 5) :=
  ⟨rfl, rfl⟩

/-- C4 (code bug evaluation): the handler cycles the attached session's uid
to 99, but the handler only holds a struct copy (`session.clone()` placed in
the request extensions), whose `uid` field is plain data; the manager's own
copy keeps the original uid 5, so the save goes to 5 and the cookie is
written with 5 — the original token's id, not the post-cycle id 99. Only
the `Arc`-shared modified flag propagates (which is why the save fires at
all: the flag cell starts `false` here). -/
theorem sessionManager_cycle_uid_cookie_original :
    (SessionManager.call
        (fun uid => Except.ok (MemStore.load ⟨[(5, ⟨5, 1000, 0, 0⟩)]⟩ uid 10).1)
        (fun _ _ => Except.ok ()) "sid" (CookieJarEntry.uuid 5)
        (fun s hh => (⟨200, 1⟩, (Session.cycle_uid s 99 hh).2.2)) 77 10
        ⟨[[("x", Value.num 1)]], [false]⟩).cookie = some ("sid", 5) ∧
    (SessionManager.call
        (fun uid => Except.ok (MemStore.load ⟨[(5, ⟨5, 1000, 0, 0⟩)]⟩ uid 10).1)
        (fun _ _ => Except.ok ()) "sid" (CookieJarEntry.uuid 5)
        (fun s hh => (⟨200, 1⟩, (Session.cycle_uid s 99 hh).2.2)) 77 10
        ⟨[[("x", Value.num 1)]], [false]⟩).saves = [(5, ⟨5, 1000, 0, 0⟩)] ∧
    (5 : Uuid) ≠ 99 :=
  ⟨rfl, rfl, by decide⟩

/-- C5: whenever the session the manager holds reports modified after the
downstream handler and the post-handler `Store::save` fails, the manager
discards the downstream response, answers with the default server-error
response, and sets no cookie. -/
theorem sessionManager_save_failure_server_error
    (loadFn : Uuid → Except StoreErr (Option Session))
    (saveFn : Uuid → Session → Except StoreErr Unit) (name : String)
    (cookie : CookieJarEntry) (handler : Session → Heap → Resp × Heap)
    (freshUid : Uuid) (now : Nat) (h h1 : Heap) (sess : Session) (e : StoreErr)
    (hacq : SessionManager.acquireSession loadFn cookie freshUid now h =
      Except.ok (sess, h1))
    (hmod : sess.is_modified (handler sess h1).2 = true)
    (hsave : saveFn sess.uid sess = Except.error e) :
    (SessionManager.call loadFn saveFn name cookie handler freshUid now h).resp
      = serverError ∧
    (SessionManager.call loadFn saveFn name cookie handler freshUid now
        h).cookie = none := by
  simp [SessionManager.call, hacq, hmod, hsave]

/-- Witness for C5: a concrete no-cookie request (the fresh session is
modified) whose save fails with a backend error. -/
theorem sessionManager_save_failure_server_error_witness :
    (SessionManager.call (fun _ => Except.ok none)
        (fun _ _ => Except.error StoreErr.backend) "sid" CookieJarEntry.absent
        (fun _ hh => (⟨200, 9⟩, hh)) 21 0 ⟨[], []⟩).resp = serverError ∧
    (SessionManager.call (fun _ => Except.ok none)
        (fun _ _ => Except.error StoreErr.backend) "sid" CookieJarEntry.absent
        (fun _ hh => (⟨200, 9⟩, hh)) 21 0 ⟨[], []⟩).cookie = none :=
  sessionManager_save_failure_server_error (fun _ => Except.ok none)
    (fun _ _ => Except.error StoreErr.backend) "sid" CookieJarEntry.absent
    (fun _ hh => (⟨200, 9⟩, hh)) 21 0 ⟨[], []⟩
    (Session.new 21 0 DEFAULT_EXPIRATION ⟨[], []⟩).2
    (Session.new 21 0 DEFAULT_EXPIRATION ⟨[], []⟩).1 StoreErr.backend rfl rfl
    rfl

/-- C8: `UserManager::call` responds 401 without invoking downstream exactly
when the session is absent, its "user_uid" entry is absent, or the user
store resolves no user; it responds with a server error without invoking
downstream exactly when the "user_uid" decode fails or the user store's
load fails; and otherwise it attaches the loaded user and passes the
downstream response through unchanged. -/
theorem userManager_call_characterization {User UserId : Type}
    (loadFn : UserId → Except StoreErr (Option User)) (idCodec : Codec UserId)
    (sessionOpt : Option Session) (h : Heap) (handler : User → Resp) :
    ((UserManager.call loadFn idCodec sessionOpt h handler).invoked = false ∧
       (UserManager.call loadFn idCodec sessionOpt h handler).resp =
         unauthorized ↔
      (sessionOpt = none ∨
       ∃ s, sessionOpt = some s ∧
         ((Session.get s idCodec "user_uid" h).1 = Except.ok none ∨
          ∃ uid, (Session.get s idCodec "user_uid" h).1 =
              Except.ok (some uid) ∧ loadFn uid = Except.ok none))) ∧
    ((UserManager.call loadFn idCodec sessionOpt h handler).invoked = false ∧
       (UserManager.call loadFn idCodec sessionOpt h handler).resp =
         serverError ↔
      (∃ s, sessionOpt = some s ∧
        ((Session.get s idCodec "user_uid" h).1 =
            Except.error SerdeErr.serde ∨
         ∃ uid e, (Session.get s idCodec "user_uid" h).1 =
             Except.ok (some uid) ∧ loadFn uid = Except.error e))) ∧
    (∀ s uid user, sessionOpt = some s →
      (Session.get s idCodec "user_uid" h).1 = Except.ok (some uid) →
      loadFn uid = Except.ok (some user) →
      UserManager.call loadFn idCodec sessionOpt h handler =
        ⟨handler user, true, some user⟩) := by
  cases sessionOpt with
  | none =>
      refine ⟨?_, ?_, ?_⟩
      · simp [UserManager.call, unauthorized]
      · simp [UserManager.call, unauthorized, serverError]
      · intro s uid user hs
        cases hs
  | some s =>
      cases hg : (Session.get s idCodec "user_uid" h).1 with
      | error e =>
          cases e
          refine ⟨?_, ?_, ?_⟩
          · simp [UserManager.call, hg, unauthorized, serverError]
          · simp [UserManager.call, hg, unauthorized, serverError]
          · intro s2 uid user hs hget
            cases hs
            rw [hget] at hg
            cases hg
      | ok ov =>
          cases ov with
          | none =>
              refine ⟨?_, ?_, ?_⟩
              · simp [UserManager.call, hg, unauthorized]
              · simp [UserManager.call, hg, unauthorized, serverError]
              · intro s2 uid user hs hget
                cases hs
                rw [hget] at hg
                cases hg
          | some uid =>
              cases hl : loadFn uid with
              | error e =>
                  refine ⟨?_, ?_, ?_⟩
                  · simp [UserManager.call, hg, hl, unauthorized, serverError]
                  · simp [UserManager.call, hg, hl, unauthorized, serverError]
                  · intro s2 uid2 user hs hget hload
                    cases hs
                    rw [hget] at hg
                    cases hg
                    rw [hload] at hl
                    cases hl
              | ok ou =>
                  cases ou with
                  | none =>
                      refine ⟨?_, ?_, ?_⟩
                      · simp [UserManager.call, hg, hl, unauthorized]
                      · simp [UserManager.call, hg, hl, unauthorized,
                          serverError]
                      · intro s2 uid2 user hs hget hload
                        cases hs
                        rw [hget] at hg
                        cases hg
                        rw [hload] at hl
                        cases hl
                  | some user =>
                      refine ⟨?_, ?_, ?_⟩
                      · simp [UserManager.call, hg, hl, unauthorized,
                          serverError]
                      · simp [UserManager.call, hg, hl, unauthorized,
                          serverError]
                      · intro s2 uid2 user2 hs hget hload
                        cases hs
                        rw [hget] at hg
                        cases hg
                        rw [hload] at hl
                        cases hl
                        simp [UserManager.call, hget, hload]

/-- Witness for C8: with no session attached, the concrete manager answers
401 without invoking downstream. -/
theorem userManager_call_characterization_witness :
    (UserManager.call
        (fun _ : Int => (Except.ok none : Except StoreErr (Option Nat)))
        intCodec none ⟨[], []⟩ (fun _ => ⟨200, 1⟩)).invoked = false ∧
    (UserManager.call
        (fun _ : Int => (Except.ok none : Except StoreErr (Option Nat)))
        intCodec none ⟨[], []⟩ (fun _ => ⟨200, 1⟩)).resp = unauthorized :=
  (userManager_call_characterization
     (fun _ : Int => (Except.ok none : Except StoreErr (Option Nat)))
     intCodec none ⟨[], []⟩ (fun _ => ⟨200, 1⟩)).1.mpr (Or.inl rfl)

end Webauth
